import Mathlib

/-!
Verification of the ticket cart reservation core of the Dsek-LTH/new-web
repository, shallowly embedded in Lean 4.

The embedding follows the source of `addTicketToCart` and its helpers
(`checkUserMaxAmount`, `addToQueue`, `addReservationInReserveWindow`,
`gracePeriodTimeouts`) and of `formatTicket` / `getTicket` / `getTickets`.
The two Prisma transactions of the source are modelled as a pure function
from a ledger state to `Except CartError (state, result)`: a thrown domain
error rolls the transaction back, so an `error` outcome leaves the ledger
unchanged by construction.  Times are integers (milliseconds since epoch,
as `Date.valueOf` in the source); database ids are natural numbers.
-/

namespace DsekShop

/-- Identification of a buyer: a registered member id or an anonymous
externally issued code, exactly one of the two (`ShopIdentification` and
`dbIdentification` in the source collapse to this sum). -/
inductive Ident where
  | member (id : Nat)
  | external (code : Nat)
deriving DecidableEq, Repr

/-- A `Consumable` row: one held or purchased unit of a Shoppable. -/
structure Consumable where
  shoppableId : Nat
  owner : Ident
  expiresAt : Option Int := none
  purchasedAt : Option Int := none
  stripeIntentId : Option Nat := none
deriving DecidableEq, Repr

/-- A `ConsumableReservation` row: lottery-pool entry (`order = none`) or
FIFO overflow-queue entry (`order = some k`). -/
structure Reservation where
  shoppableId : Nat
  owner : Ident
  order : Option Int := none
deriving DecidableEq, Repr

/-- A `Ticket` joined with its `Shoppable`, as the admission engine reads it
(`ticket.stock`, `ticket.maxAmountPerUser`, `ticket.shoppable.price`,
`ticket.shoppable.availableFrom` and so on).  The ticket id and the
shoppable id coincide in the schema. -/
structure Ticket where
  shoppableId : Nat
  price : Int
  stock : Nat
  maxAmountPerUser : Nat
  availableFrom : Int
  availableTo : Option Int := none
  removedAt : Option Int := none
deriving DecidableEq, Repr

/-- The ledger state: `Consumable` rows, `ConsumableReservation` rows, and
the process-wide `gracePeriodTimeouts` registry, each armed timer recorded
as its `shoppableId` paired with the delay it was armed for. -/
structure ShopState where
  consumables : List Consumable
  reservations : List Reservation
  gracePeriodTimeouts : List (Nat × Int)
deriving DecidableEq, Repr

/-- Modelled from the spec: `GRACE_PERIOD_WINDOW` is a fixed duration
constant exported by `types.ts`, which is not under src/.  No theorem below
depends on its numeric value. -/
def GRACE_PERIOD_WINDOW : Int := 5 * 60 * 1000

/-- Modelled from the spec: `TIME_TO_BUY` is the fixed duration of a cart
hold, exported by `types.ts`, which is not under src/.  No theorem below
depends on its numeric value. -/
def TIME_TO_BUY : Int := 30 * 60 * 1000

/-- The domain errors thrown by `addTicketToCart` and its helpers, one
constructor per distinct Swedish error message of the source. -/
inductive CartError where
  /-- Kunde inte hitta biljett -/
  | notFound
  /-- Biljettförsäljning har stängt -/
  | salesClosed
  /-- Biljettförsäljning har inte börjat -/
  | notOpenYet
  /-- Biljetten är slutsåld -/
  | soldOut
  /-- Du har redan den här biljetten (i varukorgen) -/
  | alreadyOwned
  /-- Du har redan max antal biljetter (i varukorgen) -/
  | maxAmountReached
  /-- Biljetten är redan reserverad, du får en notis när lottning är avklarad. -/
  | alreadyReserved
deriving DecidableEq, Repr

/-- `AddToCartStatus` together with the `queuePosition` payload of
`PutInQueue`. -/
inductive AddToCartResult where
  | AddedToCart
  | Reserved
  | PutInQueue (queuePosition : Int)
  | AddedToInventory
deriving DecidableEq, Repr

/-- All `Consumable` rows of one shoppable — the unfiltered
`shoppable.consumables` include of the admission engine's ticket query. -/
def consumablesOf (s : ShopState) (sid : Nat) : List Consumable :=
  s.consumables.filter (fun c => decide (c.shoppableId = sid))

/-- The `_count.consumables` aggregate of the ticket query: consumables of
the shoppable with `purchasedAt` not null. -/
def purchasedCount (s : ShopState) (sid : Nat) : Nat :=
  ((consumablesOf s sid).filter (fun c => c.purchasedAt.isSome)).length

/-- `prisma.consumable.count` filtered by identification and shoppable, as
in `checkUserMaxAmount` (any state: no `purchasedAt` or `expiresAt`
filter). -/
def userConsumableCount (s : ShopState) (sid : Nat) (who : Ident) : Nat :=
  (s.consumables.filter
    (fun c => decide (c.shoppableId = sid ∧ c.owner = who))).length

/-- `prisma.consumableReservation.count` filtered by identification and
shoppable, as in `checkUserMaxAmount`. -/
def userReservationCount (s : ShopState) (sid : Nat) (who : Ident) : Nat :=
  (s.reservations.filter
    (fun r => decide (r.shoppableId = sid ∧ r.owner = who))).length

/-- All `ConsumableReservation` rows of one shoppable, as queried by
`addToQueue`. -/
def reservationsOf (s : ShopState) (sid : Nat) : List Reservation :=
  s.reservations.filter (fun r => decide (r.shoppableId = sid))

/-- The `findFirst` of `addReservationInReserveWindow`: does this
identification hold any reservation at all?  The source filters only by the
identification, with no `shoppableId` filter. -/
def hasAnyReservation (s : ShopState) (who : Ident) : Bool :=
  s.reservations.any (fun r => decide (r.owner = who))

/-- The ticket-lookup `removedAt` filter of the admission engine:
`OR [removedAt = null, removedAt > now]`. -/
def removedFilterOk (t : Ticket) (now : Int) : Bool :=
  match t.removedAt with
  | none => true
  | some r => decide (now < r)

/-- The first window check: `availableTo && availableTo < now`. -/
def saleClosed (t : Ticket) (now : Int) : Bool :=
  match t.availableTo with
  | none => false
  | some a => decide (a < now)

/-- `checkUserMaxAmount`: first the per-user consumable count against
`maxAmountPerUser`, then the per-user reservation count; returns the error
it would throw, if any. -/
def checkUserMaxAmount (s : ShopState) (t : Ticket) (who : Ident) :
    Option CartError :=
  let currentlyInCart := userConsumableCount s t.shoppableId who
  if t.maxAmountPerUser = 1 ∧ 0 < currentlyInCart then
    some CartError.alreadyOwned
  else if t.maxAmountPerUser ≤ currentlyInCart then
    some CartError.maxAmountReached
  else if 0 < userReservationCount s t.shoppableId who then
    some CartError.alreadyReserved
  else
    none

/-- The `currentPeopleInQueue[0]?.order ?? -1` computation of `addToQueue`:
the reservations of the shoppable ordered by `order` descending.  Under
PostgreSQL, `order: desc` places rows with a null `order` first, so the head
has a null `order` (and the `?? -1` fallback fires) whenever any pooled
reservation exists; otherwise the head carries the maximum order. -/
def lastInQueueOrder (s : ShopState) (sid : Nat) : Int :=
  let qs := reservationsOf s sid
  if qs.any (fun r => r.order.isNone) then -1
  else ((qs.filterMap Reservation.order).max?).getD (-1)

/-- `addToQueue`: append a reservation one past the last queue order and
report the 1-indexed position of the new entrant. -/
def addToQueue (s : ShopState) (who : Ident) (t : Ticket) :
    Except CartError (ShopState × AddToCartResult) :=
  let lastOrder := lastInQueueOrder s t.shoppableId
  Except.ok
    ({ s with reservations := s.reservations ++
        [{ shoppableId := t.shoppableId, owner := who,
           order := some (lastOrder + 1) }] },
     AddToCartResult.PutInQueue (lastOrder + 2))

/-- `addReservationInReserveWindow`: throw if the identification already has
any reservation (no `shoppableId` filter), otherwise insert a pooled
reservation and arm the grace-period timer if this shoppable has none
armed yet. -/
def addReservationInReserveWindow (s : ShopState) (who : Ident) (sid : Nat)
    (timeUntilGracePeriod : Int) :
    Except CartError (ShopState × AddToCartResult) :=
  if hasAnyReservation s who then
    Except.error CartError.alreadyReserved
  else
    let s1 := { s with reservations := s.reservations ++
        [{ shoppableId := sid, owner := who, order := none }] }
    let s2 :=
      if s1.gracePeriodTimeouts.any (fun p => decide (p.1 = sid)) then s1
      else { s1 with gracePeriodTimeouts :=
          s1.gracePeriodTimeouts ++ [(sid, timeUntilGracePeriod)] }
    Except.ok (s2, AddToCartResult.Reserved)

/-- `addTicketToCart`, the inner `prisma.$transaction` of the admission
engine: the ticket lookup with its `removedAt` filter, the window and
sold-out checks, `checkUserMaxAmount`, and the four outcome branches.
`now` is the single `Date` taken at the start of the call. -/
def addTicketToCart (s : ShopState) (t : Ticket) (who : Ident) (now : Int) :
    Except CartError (ShopState × AddToCartResult) :=
  if removedFilterOk t now = false then
    Except.error CartError.notFound
  else if saleClosed t now then
    Except.error CartError.salesClosed
  else if now < t.availableFrom then
    Except.error CartError.notOpenYet
  else if t.stock ≤ purchasedCount s t.shoppableId then
    Except.error CartError.soldOut
  else
    match checkUserMaxAmount s t who with
    | some e => Except.error e
    | none =>
      if now - t.availableFrom < GRACE_PERIOD_WINDOW then
        addReservationInReserveWindow s who t.shoppableId
          (t.availableFrom + GRACE_PERIOD_WINDOW - now)
      else if t.stock ≤ (consumablesOf s t.shoppableId).length then
        addToQueue s who t
      else if t.price = 0 then
        Except.ok
          ({ s with consumables := s.consumables ++
              [{ shoppableId := t.shoppableId, owner := who,
                 expiresAt := none, purchasedAt := some now,
                 stripeIntentId := none }] },
           AddToCartResult.AddedToInventory)
      else
        Except.ok
          ({ s with consumables := s.consumables ++
              [{ shoppableId := t.shoppableId, owner := who,
                 expiresAt := some (now + TIME_TO_BUY), purchasedAt := none,
                 stripeIntentId := none }] },
           AddToCartResult.AddedToCart)

/-! ### Helper lemmas about the admission engine -/

/-- Unfolding of `addTicketToCart` once the lookup, window, sold-out and
per-user checks all pass. -/
theorem addTicketToCart_checksPass (s : ShopState) (t : Ticket) (who : Ident)
    (now : Int)
    (hrem : removedFilterOk t now = true)
    (hclosed : saleClosed t now = false)
    (hopen : t.availableFrom ≤ now)
    (hsold : purchasedCount s t.shoppableId < t.stock)
    (hmax : checkUserMaxAmount s t who = none) :
    addTicketToCart s t who now =
      if now - t.availableFrom < GRACE_PERIOD_WINDOW then
        addReservationInReserveWindow s who t.shoppableId
          (t.availableFrom + GRACE_PERIOD_WINDOW - now)
      else if t.stock ≤ (consumablesOf s t.shoppableId).length then
        addToQueue s who t
      else if t.price = 0 then
        Except.ok
          ({ s with consumables := s.consumables ++
              [{ shoppableId := t.shoppableId, owner := who,
                 expiresAt := none, purchasedAt := some now,
                 stripeIntentId := none }] },
           AddToCartResult.AddedToInventory)
      else
        Except.ok
          ({ s with consumables := s.consumables ++
              [{ shoppableId := t.shoppableId, owner := who,
                 expiresAt := some (now + TIME_TO_BUY), purchasedAt := none,
                 stripeIntentId := none }] },
           AddToCartResult.AddedToCart) := by
  unfold addTicketToCart
  rw [hrem, hclosed]
  rw [if_neg (by simp), if_neg (by simp), if_neg (not_lt.mpr hopen),
    if_neg (Nat.not_le.mpr hsold), hmax]

/-- `addTicketToCart` always fails on a sold-out shoppable (purchased count
at stock or above). -/
theorem addTicketToCart_isError_of_soldOut (s : ShopState) (t : Ticket)
    (who : Ident) (now : Int)
    (hsold : t.stock ≤ purchasedCount s t.shoppableId) :
    ∃ e, addTicketToCart s t who now = Except.error e := by
  unfold addTicketToCart
  by_cases h1 : removedFilterOk t now = false
  · rw [if_pos h1]; exact ⟨_, rfl⟩
  rw [if_neg h1]
  by_cases h2 : saleClosed t now = true
  · rw [if_pos h2]; exact ⟨_, rfl⟩
  rw [if_neg h2]
  by_cases h3 : now < t.availableFrom
  · rw [if_pos h3]; exact ⟨_, rfl⟩
  rw [if_neg h3, if_pos hsold]
  exact ⟨_, rfl⟩

/-- An `ok` outcome of `addTicketToCart` implies the purchased count of the
shoppable was strictly below stock. -/
theorem addTicketToCart_ok_purchased_lt (s : ShopState) (t : Ticket)
    (who : Ident) (now : Int) (s' : ShopState) (r : AddToCartResult)
    (h : addTicketToCart s t who now = Except.ok (s', r)) :
    purchasedCount s t.shoppableId < t.stock := by
  by_contra hle
  obtain ⟨e, he⟩ :=
    addTicketToCart_isError_of_soldOut s t who now (Nat.le_of_not_lt hle)
  rw [he] at h
  exact Except.noConfusion h

/-- `addReservationInReserveWindow` never touches the consumables. -/
theorem addReservationInReserveWindow_consumables (s : ShopState)
    (who : Ident) (sid : Nat) (d : Int) (s' : ShopState)
    (r : AddToCartResult)
    (h : addReservationInReserveWindow s who sid d = Except.ok (s', r)) :
    s'.consumables = s.consumables := by
  unfold addReservationInReserveWindow at h
  split at h
  · exact Except.noConfusion h
  · dsimp only at h
    split at h <;>
    · simp only [Except.ok.injEq, Prod.mk.injEq] at h
      rw [← h.1]

/-- `addToQueue` never touches the consumables. -/
theorem addToQueue_consumables (s : ShopState) (who : Ident) (t : Ticket)
    (s' : ShopState) (r : AddToCartResult)
    (h : addToQueue s who t = Except.ok (s', r)) :
    s'.consumables = s.consumables := by
  unfold addToQueue at h
  simp only [Except.ok.injEq, Prod.mk.injEq] at h
  rw [← h.1]

/-- Appending one consumable adds at most one to the purchased count. -/
theorem purchasedCount_append_le (s : ShopState) (c : Consumable)
    (sid : Nat) :
    purchasedCount { s with consumables := s.consumables ++ [c] } sid ≤
      purchasedCount s sid + 1 := by
  simp only [purchasedCount, consumablesOf, List.filter_append,
    List.length_append]
  have h1 : ((List.filter (fun c => decide (c.shoppableId = sid)) [c]).filter
      (fun c => c.purchasedAt.isSome)).length ≤ 1 := by
    calc ((List.filter (fun c => decide (c.shoppableId = sid)) [c]).filter
        (fun c => c.purchasedAt.isSome)).length
        ≤ (List.filter (fun c => decide (c.shoppableId = sid)) [c]).length :=
          List.length_filter_le _ _
      _ ≤ [c].length := List.length_filter_le _ _
      _ = 1 := rfl
  omega

/-- `purchasedCount` depends only on the consumables of the state. -/
theorem purchasedCount_congr (s s' : ShopState)
    (h : s'.consumables = s.consumables) (sid : Nat) :
    purchasedCount s' sid = purchasedCount s sid := by
  simp only [purchasedCount, consumablesOf, h]

/-- An `ok` outcome of `addTicketToCart` leaves the consumables unchanged or
appends exactly one row. -/
theorem addTicketToCart_ok_consumables (s : ShopState) (t : Ticket)
    (who : Ident) (now : Int) (s' : ShopState) (r : AddToCartResult)
    (h : addTicketToCart s t who now = Except.ok (s', r)) :
    s'.consumables = s.consumables ∨
      ∃ c, s'.consumables = s.consumables ++ [c] := by
  unfold addTicketToCart at h
  split at h
  · exact Except.noConfusion h
  split at h
  · exact Except.noConfusion h
  split at h
  · exact Except.noConfusion h
  split at h
  · exact Except.noConfusion h
  split at h
  · exact Except.noConfusion h
  · split at h
    · exact Or.inl (addReservationInReserveWindow_consumables _ _ _ _ _ _ h)
    split at h
    · exact Or.inl (addToQueue_consumables _ _ _ _ _ h)
    split at h
    · simp only [Except.ok.injEq, Prod.mk.injEq] at h
      exact Or.inr ⟨_, by rw [← h.1]⟩
    · simp only [Except.ok.injEq, Prod.mk.injEq] at h
      exact Or.inr ⟨_, by rw [← h.1]⟩

/-- If the per-user consumable limit is hit or a reservation for this
shoppable exists, `checkUserMaxAmount` reports an error. -/
theorem checkUserMaxAmount_isSome (s : ShopState) (t : Ticket) (who : Ident)
    (h : t.maxAmountPerUser ≤ userConsumableCount s t.shoppableId who ∨
         0 < userReservationCount s t.shoppableId who) :
    ∃ e, checkUserMaxAmount s t who = some e := by
  unfold checkUserMaxAmount
  dsimp only
  by_cases h1 : t.maxAmountPerUser = 1 ∧
      0 < userConsumableCount s t.shoppableId who
  · rw [if_pos h1]; exact ⟨_, rfl⟩
  rw [if_neg h1]
  by_cases h2 : t.maxAmountPerUser ≤ userConsumableCount s t.shoppableId who
  · rw [if_pos h2]; exact ⟨_, rfl⟩
  rw [if_neg h2]
  rcases h with h | h
  · exact absurd h h2
  · rw [if_pos h]; exact ⟨_, rfl⟩

/-! ### Claim theorems -/

/-- C1: purchased consumables never exceed stock.  If the purchased count of
a shoppable has reached its stock, `addTicketToCart` fails — with the
sold-out error whenever the lookup and window checks pass — and (the thrown
error rolling the transaction back) creates nothing; and any successful call
leaves the purchased count at or below stock. -/
theorem C1_purchasedNeverExceedsStock (s : ShopState) (t : Ticket)
    (who : Ident) (now : Int) :
    (t.stock ≤ purchasedCount s t.shoppableId →
      (∃ e, addTicketToCart s t who now = Except.error e) ∧
      (removedFilterOk t now = true → saleClosed t now = false →
        t.availableFrom ≤ now →
        addTicketToCart s t who now = Except.error CartError.soldOut)) ∧
    (∀ s' r, addTicketToCart s t who now = Except.ok (s', r) →
      purchasedCount s' t.shoppableId ≤ t.stock) := by
  constructor
  · intro hsold
    refine ⟨addTicketToCart_isError_of_soldOut s t who now hsold, ?_⟩
    intro hrem hclosed hopen
    unfold addTicketToCart
    rw [hrem, hclosed]
    rw [if_neg (by simp), if_neg (by simp), if_neg (not_lt.mpr hopen),
      if_pos hsold]
  · intro s' r h
    have hlt := addTicketToCart_ok_purchased_lt s t who now s' r h
    rcases addTicketToCart_ok_consumables s t who now s' r h with hc | ⟨c, hc⟩
    · rw [purchasedCount_congr s s' hc]
      exact Nat.le_of_lt hlt
    · have h1 : purchasedCount s' t.shoppableId =
          purchasedCount { s with consumables := s.consumables ++ [c] }
            t.shoppableId :=
        purchasedCount_congr _ _ hc _
      have h2 := purchasedCount_append_le s c t.shoppableId
      omega

/-- C1 witness: with one purchased unit and stock 1 the call fails sold out;
a successful call on an empty ledger keeps the purchased count at or below
stock. -/
theorem C1_purchasedNeverExceedsStock_witness :
    addTicketToCart
        (⟨[{ shoppableId := 0, owner := Ident.member 1, expiresAt := none,
             purchasedAt := some 0, stripeIntentId := none }], [], []⟩ :
          ShopState)
        ({ shoppableId := 0, price := 100, stock := 1, maxAmountPerUser := 1,
           availableFrom := 0 } : Ticket)
        (Ident.member 0) 600000 = Except.error CartError.soldOut ∧
    purchasedCount
        (⟨[{ shoppableId := 0, owner := Ident.member 0,
             expiresAt := some 2400000, purchasedAt := none,
             stripeIntentId := none }], [], []⟩ : ShopState) 0 ≤ 1 := by
  constructor
  · exact ((C1_purchasedNeverExceedsStock _ _ _ _).1 (by decide)).2 rfl rfl
      (by decide)
  · exact (C1_purchasedNeverExceedsStock
      (⟨[], [], []⟩ : ShopState)
      ({ shoppableId := 0, price := 100, stock := 1, maxAmountPerUser := 1,
         availableFrom := 0 } : Ticket)
      (Ident.member 0) 600000).2 _ AddToCartResult.AddedToCart rfl

/-- C4: in the final branch (open window, stock available, no limit
violation), a zero-priced shoppable yields a consumable purchased now with
no expiry and the result `AddedToInventory`; a positive price yields a hold
expiring at `now + TIME_TO_BUY`, not purchased, and the result
`AddedToCart`. -/
theorem C4_directAddBranches (s : ShopState) (t : Ticket) (who : Ident)
    (now : Int)
    (hrem : removedFilterOk t now = true)
    (hclosed : saleClosed t now = false)
    (hopen : t.availableFrom ≤ now)
    (hsold : purchasedCount s t.shoppableId < t.stock)
    (hmax : checkUserMaxAmount s t who = none)
    (hgrace : GRACE_PERIOD_WINDOW ≤ now - t.availableFrom)
    (hstock : (consumablesOf s t.shoppableId).length < t.stock) :
    (t.price = 0 →
      addTicketToCart s t who now = Except.ok
        ({ s with consumables := s.consumables ++
            [{ shoppableId := t.shoppableId, owner := who, expiresAt := none,
               purchasedAt := some now, stripeIntentId := none }] },
         AddToCartResult.AddedToInventory)) ∧
    (t.price ≠ 0 →
      addTicketToCart s t who now = Except.ok
        ({ s with consumables := s.consumables ++
            [{ shoppableId := t.shoppableId, owner := who,
               expiresAt := some (now + TIME_TO_BUY), purchasedAt := none,
               stripeIntentId := none }] },
         AddToCartResult.AddedToCart)) := by
  rw [addTicketToCart_checksPass s t who now hrem hclosed hopen hsold hmax]
  constructor
  · intro hp
    rw [if_neg (not_lt.mpr hgrace), if_neg (Nat.not_le.mpr hstock),
      if_pos hp]
  · intro hp
    rw [if_neg (not_lt.mpr hgrace), if_neg (Nat.not_le.mpr hstock),
      if_neg hp]

/-- C4 witness: the free branch grants immediately on a zero-priced ticket
and the paid branch creates a hold. -/
theorem C4_directAddBranches_witness :
    addTicketToCart (⟨[], [], []⟩ : ShopState)
        ({ shoppableId := 0, price := 0, stock := 1, maxAmountPerUser := 1,
           availableFrom := 0 } : Ticket) (Ident.member 0) 600000 =
      Except.ok
        (⟨[{ shoppableId := 0, owner := Ident.member 0, expiresAt := none,
             purchasedAt := some 600000, stripeIntentId := none }], [], []⟩,
         AddToCartResult.AddedToInventory) ∧
    addTicketToCart (⟨[], [], []⟩ : ShopState)
        ({ shoppableId := 0, price := 100, stock := 1, maxAmountPerUser := 1,
           availableFrom := 0 } : Ticket) (Ident.member 0) 600000 =
      Except.ok
        (⟨[{ shoppableId := 0, owner := Ident.member 0,
             expiresAt := some 2400000, purchasedAt := none,
             stripeIntentId := none }], [], []⟩,
         AddToCartResult.AddedToCart) := by
  constructor
  · exact (C4_directAddBranches (⟨[], [], []⟩ : ShopState)
      ({ shoppableId := 0, price := 0, stock := 1, maxAmountPerUser := 1,
         availableFrom := 0 } : Ticket) (Ident.member 0) 600000 rfl rfl
      (by decide) (by decide) rfl (by decide) (by decide)).1 rfl
  · exact (C4_directAddBranches (⟨[], [], []⟩ : ShopState)
      ({ shoppableId := 0, price := 100, stock := 1, maxAmountPerUser := 1,
         availableFrom := 0 } : Ticket) (Ident.member 0) 600000 rfl rfl
      (by decide) (by decide) rfl (by decide) (by decide)).2 (by decide)

/-- C5: a buyer already holding at least `maxAmountPerUser` units of the
shoppable (any state) or holding a reservation for it always gets a domain
error, and the thrown error rolls the transaction back, so nothing is
created. -/
theorem C5_perUserLimits (s : ShopState) (t : Ticket) (who : Ident)
    (now : Int)
    (h : t.maxAmountPerUser ≤ userConsumableCount s t.shoppableId who ∨
         0 < userReservationCount s t.shoppableId who) :
    ∃ e, addTicketToCart s t who now = Except.error e := by
  unfold addTicketToCart
  by_cases h1 : removedFilterOk t now = false
  · rw [if_pos h1]; exact ⟨_, rfl⟩
  rw [if_neg h1]
  by_cases h2 : saleClosed t now = true
  · rw [if_pos h2]; exact ⟨_, rfl⟩
  rw [if_neg h2]
  by_cases h3 : now < t.availableFrom
  · rw [if_pos h3]; exact ⟨_, rfl⟩
  rw [if_neg h3]
  by_cases h4 : t.stock ≤ purchasedCount s t.shoppableId
  · rw [if_pos h4]; exact ⟨_, rfl⟩
  rw [if_neg h4]
  obtain ⟨e, he⟩ := checkUserMaxAmount_isSome s t who h
  rw [he]
  exact ⟨e, rfl⟩

/-- C5 witness: a buyer at the limit (one unit held, `maxAmountPerUser`
one) is rejected. -/
theorem C5_perUserLimits_witness :
    ∃ e, addTicketToCart
        (⟨[{ shoppableId := 0, owner := Ident.member 0, expiresAt := none,
             purchasedAt := none, stripeIntentId := none }], [], []⟩ :
          ShopState)
        ({ shoppableId := 0, price := 100, stock := 5, maxAmountPerUser := 1,
           availableFrom := 0 } : Ticket)
        (Ident.member 0) 600000 = Except.error e :=
  C5_perUserLimits _ _ _ _ (Or.inl (by decide))

/-- C6 counterexample: a shoppable that closed before it opens
(`availableTo` strictly before `availableFrom`), queried in between, is
reported closed, not not-yet-open, although `now < availableFrom`: the code
checks `availableTo` first. -/
theorem C6_counterexample :
    ((7 : Int) < 10) ∧
    addTicketToCart (⟨[], [], []⟩ : ShopState)
        ({ shoppableId := 0, price := 100, stock := 1, maxAmountPerUser := 1,
           availableFrom := 10, availableTo := some 5 } : Ticket)
        (Ident.member 0) 7 = Except.error CartError.salesClosed ∧
    CartError.salesClosed ≠ CartError.notOpenYet :=
  ⟨by decide, rfl, by decide⟩

/-- C6 (amended): when `now < availableFrom` and the shoppable is neither
removed nor already past a non-null `availableTo`, the outcome is the
not-yet-open error; if `availableTo` already passed, the closed error wins,
because the code checks it first. -/
theorem C6_notYetOpen (s : ShopState) (t : Ticket) (who : Ident) (now : Int)
    (hrem : removedFilterOk t now = true)
    (hclosed : saleClosed t now = false)
    (hopen : now < t.availableFrom) :
    addTicketToCart s t who now = Except.error CartError.notOpenYet := by
  unfold addTicketToCart
  rw [hrem, hclosed]
  rw [if_neg (by simp), if_neg (by simp), if_pos hopen]

/-- C6 witness: a ticket queried before its opening with no closing date is
reported not yet open. -/
theorem C6_notYetOpen_witness :
    addTicketToCart (⟨[], [], []⟩ : ShopState)
        ({ shoppableId := 0, price := 100, stock := 1, maxAmountPerUser := 1,
           availableFrom := 10 } : Ticket)
        (Ident.member 0) 7 = Except.error CartError.notOpenYet :=
  C6_notYetOpen _ _ _ _ rfl rfl (by decide)

/-- The count of outstanding (unexpired) consumables of a shoppable:
`expiresAt` null or strictly in the future. -/
def unexpiredConsumableCount (s : ShopState) (sid : Nat) (now : Int) : Nat :=
  ((consumablesOf s sid).filter (fun c =>
    match c.expiresAt with
    | none => true
    | some e => decide (now < e))).length

/-- The maximum `order` among a shoppable's reservations, `-1` when none
has an order: the spec's "max(existing order)" with the empty-queue
default. -/
def maxExistingOrder (s : ShopState) (sid : Nat) : Int :=
  (((reservationsOf s sid).filterMap Reservation.order).max?).getD (-1)

/-- C2: inside the grace window, after the earlier checks pass, a caller
with any existing reservation — the lookup filters only by identification,
with no `shoppableId` filter — gets the already-reserved error (rolling the
transaction back, so nothing is created); otherwise exactly one pooled
reservation (`order` null) for this shoppable is inserted and the call
returns `Reserved`. -/
theorem C2_graceWindowReservation (s : ShopState) (t : Ticket) (who : Ident)
    (now : Int)
    (hrem : removedFilterOk t now = true)
    (hclosed : saleClosed t now = false)
    (hopen : t.availableFrom ≤ now)
    (hsold : purchasedCount s t.shoppableId < t.stock)
    (hmax : checkUserMaxAmount s t who = none)
    (hgrace : now - t.availableFrom < GRACE_PERIOD_WINDOW) :
    (hasAnyReservation s who = true →
      addTicketToCart s t who now =
        Except.error CartError.alreadyReserved) ∧
    (hasAnyReservation s who = false →
      ∃ s', addTicketToCart s t who now =
          Except.ok (s', AddToCartResult.Reserved) ∧
        s'.reservations = s.reservations ++
          [{ shoppableId := t.shoppableId, owner := who, order := none }] ∧
        s'.consumables = s.consumables) := by
  rw [addTicketToCart_checksPass s t who now hrem hclosed hopen hsold hmax,
    if_pos hgrace]
  unfold addReservationInReserveWindow
  constructor
  · intro hres
    rw [if_pos hres]
  · intro hres
    rw [if_neg (by rw [hres]; exact Bool.false_ne_true)]
    dsimp only
    refine ⟨_, rfl, ?_, ?_⟩
    · split <;> rfl
    · split <;> rfl

/-- C2 witness: a reservation held for a different shoppable already blocks
a grace-window admission; with no reservation at all, one pooled
reservation is inserted. -/
theorem C2_graceWindowReservation_witness :
    addTicketToCart
        (⟨[], [{ shoppableId := 5, owner := Ident.member 0,
                 order := none }], []⟩ : ShopState)
        ({ shoppableId := 0, price := 100, stock := 1, maxAmountPerUser := 1,
           availableFrom := 0 } : Ticket)
        (Ident.member 0) 100 = Except.error CartError.alreadyReserved ∧
    ∃ s', addTicketToCart (⟨[], [], []⟩ : ShopState)
        ({ shoppableId := 0, price := 100, stock := 1, maxAmountPerUser := 1,
           availableFrom := 0 } : Ticket)
        (Ident.member 0) 100 =
        Except.ok (s', AddToCartResult.Reserved) ∧
      s'.reservations =
        [{ shoppableId := 0, owner := Ident.member 0, order := none }] ∧
      s'.consumables = [] := by
  constructor
  · exact (C2_graceWindowReservation
      (⟨[], [{ shoppableId := 5, owner := Ident.member 0,
               order := none }], []⟩ : ShopState)
      ({ shoppableId := 0, price := 100, stock := 1, maxAmountPerUser := 1,
         availableFrom := 0 } : Ticket)
      (Ident.member 0) 100 rfl rfl (by decide) (by decide) rfl
      (by decide)).1 rfl
  · exact (C2_graceWindowReservation (⟨[], [], []⟩ : ShopState)
      ({ shoppableId := 0, price := 100, stock := 1, maxAmountPerUser := 1,
         availableFrom := 0 } : Ticket)
      (Ident.member 0) 100 rfl rfl (by decide) (by decide) rfl
      (by decide)).2 rfl

/-- C3: outside the grace window with at least `stock` outstanding
(unexpired) consumables — and all remaining reservations of the shoppable
queued, as the lottery leaves them — the caller is appended to the overflow
queue with `order` one past the maximum existing order (`-1` when the queue
is empty, so a first entrant gets order 0) and the reported 1-indexed
position counts the new entrant. -/
theorem C3_overflowQueue (s : ShopState) (t : Ticket) (who : Ident)
    (now : Int)
    (hrem : removedFilterOk t now = true)
    (hclosed : saleClosed t now = false)
    (hopen : t.availableFrom ≤ now)
    (hsold : purchasedCount s t.shoppableId < t.stock)
    (hmax : checkUserMaxAmount s t who = none)
    (hgrace : GRACE_PERIOD_WINDOW ≤ now - t.availableFrom)
    (hfull : t.stock ≤ unexpiredConsumableCount s t.shoppableId now)
    (hnopool : ∀ r ∈ reservationsOf s t.shoppableId, r.order ≠ none) :
    addTicketToCart s t who now = Except.ok
      ({ s with reservations := s.reservations ++
          [{ shoppableId := t.shoppableId, owner := who,
             order := some (maxExistingOrder s t.shoppableId + 1) }] },
       AddToCartResult.PutInQueue (maxExistingOrder s t.shoppableId + 2)) := by
  rw [addTicketToCart_checksPass s t who now hrem hclosed hopen hsold hmax,
    if_neg (not_lt.mpr hgrace)]
  have hfull' : t.stock ≤ (consumablesOf s t.shoppableId).length :=
    le_trans hfull (List.length_filter_le _ _)
  rw [if_pos hfull']
  unfold addToQueue
  have hlast : lastInQueueOrder s t.shoppableId =
      maxExistingOrder s t.shoppableId := by
    unfold lastInQueueOrder maxExistingOrder
    dsimp only
    have hany : (reservationsOf s t.shoppableId).any
        (fun r => r.order.isNone) = false := by
      rw [List.any_eq_false]
      intro r hr
      rw [Bool.not_eq_true, Option.isNone_eq_false_iff,
        Option.isSome_iff_ne_none]
      exact hnopool r hr
    rw [hany, if_neg Bool.false_ne_true]
  rw [hlast]

/-- C3 witness: with stock 1 held by buyer A and an empty queue, buyer B is
queued with order 0 at position 1; a third buyer then lands at order 1,
position 2. -/
theorem C3_overflowQueue_witness :
    addTicketToCart
        (⟨[{ shoppableId := 0, owner := Ident.member 1,
             expiresAt := some 700000, purchasedAt := none,
             stripeIntentId := none }], [], []⟩ : ShopState)
        ({ shoppableId := 0, price := 1000, stock := 1,
           maxAmountPerUser := 1, availableFrom := 0 } : Ticket)
        (Ident.member 0) 600000 = Except.ok
        (⟨[{ shoppableId := 0, owner := Ident.member 1,
             expiresAt := some 700000, purchasedAt := none,
             stripeIntentId := none }],
          [{ shoppableId := 0, owner := Ident.member 0, order := some 0 }],
          []⟩,
         AddToCartResult.PutInQueue 1) ∧
    addTicketToCart
        (⟨[{ shoppableId := 0, owner := Ident.member 1,
             expiresAt := some 700000, purchasedAt := none,
             stripeIntentId := none }],
          [{ shoppableId := 0, owner := Ident.member 2, order := some 0 }],
          []⟩ : ShopState)
        ({ shoppableId := 0, price := 1000, stock := 1,
           maxAmountPerUser := 1, availableFrom := 0 } : Ticket)
        (Ident.member 0) 600000 = Except.ok
        (⟨[{ shoppableId := 0, owner := Ident.member 1,
             expiresAt := some 700000, purchasedAt := none,
             stripeIntentId := none }],
          [{ shoppableId := 0, owner := Ident.member 2, order := some 0 },
           { shoppableId := 0, owner := Ident.member 0, order := some 1 }],
          []⟩,
         AddToCartResult.PutInQueue 2) := by
  constructor
  · exact C3_overflowQueue
      (⟨[{ shoppableId := 0, owner := Ident.member 1,
           expiresAt := some 700000, purchasedAt := none,
           stripeIntentId := none }], [], []⟩ : ShopState)
      ({ shoppableId := 0, price := 1000, stock := 1,
         maxAmountPerUser := 1, availableFrom := 0 } : Ticket)
      (Ident.member 0) 600000 rfl rfl (by decide) (by decide) rfl
      (by decide) (by decide) (by decide)
  · exact C3_overflowQueue
      (⟨[{ shoppableId := 0, owner := Ident.member 1,
           expiresAt := some 700000, purchasedAt := none,
           stripeIntentId := none }],
        [{ shoppableId := 0, owner := Ident.member 2, order := some 0 }],
        []⟩ : ShopState)
      ({ shoppableId := 0, price := 1000, stock := 1,
         maxAmountPerUser := 1, availableFrom := 0 } : Ticket)
      (Ident.member 0) 600000 rfl rfl (by decide) (by decide) rfl
      (by decide) (by decide) (by decide)

/-- Number of armed grace-period timers for one shoppable. -/
def timerCount (s : ShopState) (sid : Nat) : Nat :=
  (s.gracePeriodTimeouts.filter (fun p => decide (p.1 = sid))).length

/-- One admission request: the ticket, the caller and the call time. -/
structure CartCall where
  ticket : Ticket
  who : Ident
  now : Int

/-- Run a sequence of admission requests; a thrown error rolls the
transaction back, leaving the state unchanged. -/
def runCartCalls (s : ShopState) (calls : List CartCall) : ShopState :=
  calls.foldl (fun st c =>
    match addTicketToCart st c.ticket c.who c.now with
    | Except.ok (s', _) => s'
    | Except.error _ => st) s

/-- A successful admission leaves the timer registry unchanged, or — only
when the registry had no entry for the shoppable — appends the single timer
for `availableFrom + GRACE_PERIOD_WINDOW - now`. -/
theorem addTicketToCart_ok_timeouts (s : ShopState) (t : Ticket)
    (who : Ident) (now : Int) (s' : ShopState) (r : AddToCartResult)
    (h : addTicketToCart s t who now = Except.ok (s', r)) :
    s'.gracePeriodTimeouts = s.gracePeriodTimeouts ∨
      (s.gracePeriodTimeouts.any (fun p => decide (p.1 = t.shoppableId)) =
          false ∧
       s'.gracePeriodTimeouts = s.gracePeriodTimeouts ++
         [(t.shoppableId,
           t.availableFrom + GRACE_PERIOD_WINDOW - now)]) := by
  unfold addTicketToCart at h
  split at h
  · exact Except.noConfusion h
  split at h
  · exact Except.noConfusion h
  split at h
  · exact Except.noConfusion h
  split at h
  · exact Except.noConfusion h
  split at h
  · exact Except.noConfusion h
  · split at h
    · unfold addReservationInReserveWindow at h
      split at h
      · exact Except.noConfusion h
      · dsimp only at h
        split at h
        next hcond =>
          simp only [Except.ok.injEq, Prod.mk.injEq] at h
          exact Or.inl (by rw [← h.1])
        next hcond =>
          simp only [Except.ok.injEq, Prod.mk.injEq] at h
          refine Or.inr ⟨Bool.eq_false_iff.mpr hcond, by rw [← h.1]⟩
    split at h
    · unfold addToQueue at h
      simp only [Except.ok.injEq, Prod.mk.injEq] at h
      exact Or.inl (by rw [← h.1])
    split at h
    · simp only [Except.ok.injEq, Prod.mk.injEq] at h
      exact Or.inl (by rw [← h.1])
    · simp only [Except.ok.injEq, Prod.mk.injEq] at h
      exact Or.inl (by rw [← h.1])

/-- An armed-timer registry with no entry for a shoppable is exactly one
whose `any` lookup — the `=== undefined` check of the source — fails. -/
theorem timerCount_eq_zero_iff (s : ShopState) (sid : Nat) :
    timerCount s sid = 0 ↔
      s.gracePeriodTimeouts.any (fun p => decide (p.1 = sid)) = false := by
  simp [timerCount, List.length_eq_zero, List.filter_eq_nil_iff,
    List.any_eq_false]

/-- Appending one timer entry adds one to its shoppable's count and leaves
the other counts unchanged. -/
theorem timerCount_append (s : ShopState) (sid sid0 : Nat) (d : Int) :
    timerCount { s with gracePeriodTimeouts :=
        s.gracePeriodTimeouts ++ [(sid0, d)] } sid =
      timerCount s sid + (if sid0 = sid then 1 else 0) := by
  simp only [timerCount, List.filter_append, List.length_append]
  congr 1
  by_cases h : sid0 = sid <;> simp [h]

/-- The per-step preservation of the one-timer bound. -/
theorem timerCount_step_le (s : ShopState) (sid : Nat) (c : CartCall)
    (h : timerCount s sid ≤ 1) :
    timerCount
      (match addTicketToCart s c.ticket c.who c.now with
        | Except.ok (s', _) => s'
        | Except.error _ => s) sid ≤ 1 := by
  rcases hc : addTicketToCart s c.ticket c.who c.now with e | ⟨s', r⟩
  · exact h
  · show timerCount s' sid ≤ 1
    rcases addTicketToCart_ok_timeouts s c.ticket c.who c.now s' r hc with
      ht | ⟨hz, ht⟩
    · have : timerCount s' sid = timerCount s sid := by
        simp only [timerCount, ht]
      omega
    · have h1 : timerCount s' sid =
          timerCount { s with gracePeriodTimeouts :=
            s.gracePeriodTimeouts ++
              [(c.ticket.shoppableId,
                c.ticket.availableFrom + GRACE_PERIOD_WINDOW - c.now)] }
            sid := by
        simp only [timerCount, ht]
      rw [h1, timerCount_append]
      by_cases hs : c.ticket.shoppableId = sid
      · have hz' : timerCount s sid = 0 := by
          rw [timerCount_eq_zero_iff, ← hs]
          exact hz
        simp [hs, hz']
      · simp [hs, h]

/-- Preservation of the one-timer bound across any sequence of admission
calls. -/
theorem runCartCalls_timerCount (sid : Nat) (calls : List CartCall) :
    ∀ s : ShopState, timerCount s sid ≤ 1 →
      timerCount (runCartCalls s calls) sid ≤ 1 := by
  induction calls with
  | nil => intro s h; exact h
  | cons c cs ih =>
    intro s h
    rw [runCartCalls, List.foldl_cons]
    exact ih _ (timerCount_step_le s sid c h)

/-- C9: the grace-window timer registry is check-then-set per shoppable.
Any successful admission either leaves the registry unchanged or — only
when the shoppable had no armed timer — arms the single one-shot timer for
`availableFrom + GRACE_PERIOD_WINDOW - now`; an already-armed shoppable is
never re-armed; and over any sequence of admissions the registry never
holds two timers for one shoppable. -/
theorem C9_singleTimerPerShoppable (s : ShopState) (sid : Nat) :
    (∀ t who now s' r, addTicketToCart s t who now = Except.ok (s', r) →
      s'.gracePeriodTimeouts = s.gracePeriodTimeouts ∨
        (timerCount s t.shoppableId = 0 ∧
         s'.gracePeriodTimeouts = s.gracePeriodTimeouts ++
           [(t.shoppableId,
             t.availableFrom + GRACE_PERIOD_WINDOW - now)])) ∧
    (∀ t who now s' r, addTicketToCart s t who now = Except.ok (s', r) →
      0 < timerCount s t.shoppableId →
      s'.gracePeriodTimeouts = s.gracePeriodTimeouts) ∧
    (∀ calls, timerCount s sid ≤ 1 →
      timerCount (runCartCalls s calls) sid ≤ 1) := by
  refine ⟨?_, ?_, fun calls => runCartCalls_timerCount sid calls s⟩
  · intro t who now s' r h
    rcases addTicketToCart_ok_timeouts s t who now s' r h with ht | ⟨hz, ht⟩
    · exact Or.inl ht
    · exact Or.inr ⟨(timerCount_eq_zero_iff s t.shoppableId).mpr hz, ht⟩
  · intro t who now s' r h hpos
    rcases addTicketToCart_ok_timeouts s t who now s' r h with ht | ⟨hz, ht⟩
    · exact ht
    · rw [(timerCount_eq_zero_iff s t.shoppableId).mpr hz] at hpos
      exact absurd hpos (by decide)

/-- C9 witness: a grace-window admission on a shoppable whose timer is
already armed leaves the registry unchanged, and the bound survives a
concrete sequence of admissions. -/
theorem C9_singleTimerPerShoppable_witness :
    ((⟨[], [{ shoppableId := 0, owner := Ident.member 0, order := none }],
        [(0, 5)]⟩ : ShopState).gracePeriodTimeouts =
      (⟨[], [], [(0, 5)]⟩ : ShopState).gracePeriodTimeouts) ∧
    timerCount
      (runCartCalls (⟨[], [], []⟩ : ShopState)
        [{ ticket := { shoppableId := 0, price := 100, stock := 1,
                       maxAmountPerUser := 1, availableFrom := 0 },
           who := Ident.member 0, now := 100 },
         { ticket := { shoppableId := 0, price := 100, stock := 1,
                       maxAmountPerUser := 1, availableFrom := 0 },
           who := Ident.member 1, now := 150 }]) 0 ≤ 1 := by
  constructor
  · exact (C9_singleTimerPerShoppable (⟨[], [], [(0, 5)]⟩ : ShopState)
      0).2.1
      ({ shoppableId := 0, price := 100, stock := 1, maxAmountPerUser := 1,
         availableFrom := 0 } : Ticket)
      (Ident.member 0) 100 _ AddToCartResult.Reserved rfl (by decide)
  · exact (C9_singleTimerPerShoppable (⟨[], [], []⟩ : ShopState) 0).2.2 _
      (by decide)

/-! ### Purchase / settlement coordinator

`purchase.ts` and `stripeWebhooks.ts` are not under src/ — only their test
suite is — so `onPaymentSuccess` and `purchaseCart` are modelled from the
spec, §4.4. -/

/-- Modelled from the spec: `onPaymentSuccess` (in `stripeWebhooks.ts`,
not under src/).  On the provider's confirmation callback it atomically
sets `purchasedAt = now` on exactly the consumables carrying the confirmed
intent id whose purchase is still pending; the transition is one-way. -/
def onPaymentSuccess (s : ShopState) (intentId : Nat) (now : Int) :
    ShopState :=
  { s with consumables := s.consumables.map (fun c =>
      if c.stripeIntentId = some intentId ∧ c.purchasedAt = none then
        { c with purchasedAt := some now }
      else c) }

/-- C7: payment confirmation is idempotent — a second `onPaymentSuccess`
for the same intent id is a no-op (whatever its call time), every
consumable carrying the intent id ends up purchased, and consumables not
carrying it are untouched. -/
theorem C7_onPaymentSuccessIdempotent (s : ShopState) (intentId : Nat)
    (t1 t2 : Int) :
    onPaymentSuccess (onPaymentSuccess s intentId t1) intentId t2 =
      onPaymentSuccess s intentId t1 ∧
    (∀ c ∈ (onPaymentSuccess s intentId t1).consumables,
      c.stripeIntentId = some intentId → c.purchasedAt ≠ none) ∧
    (∀ c ∈ s.consumables, c.stripeIntentId ≠ some intentId →
      c ∈ (onPaymentSuccess s intentId t1).consumables) := by
  refine ⟨?_, ?_, ?_⟩
  · unfold onPaymentSuccess
    dsimp only
    congr 1
    rw [List.map_map]
    refine List.map_congr_left ?_
    intro c _
    by_cases hc : c.stripeIntentId = some intentId ∧ c.purchasedAt = none
    · simp only [Function.comp_apply, if_pos hc]
      rw [if_neg (by simp)]
    · simp only [Function.comp_apply, if_neg hc]
  · intro c hc hi
    unfold onPaymentSuccess at hc
    obtain ⟨c0, _, rfl⟩ := List.mem_map.mp hc
    by_cases h0 : c0.stripeIntentId = some intentId ∧ c0.purchasedAt = none
    · rw [if_pos h0]
      simp
    · rw [if_neg h0]
      rw [if_neg h0] at hi
      intro hp
      exact h0 ⟨hi, hp⟩
  · intro c hc hne
    unfold onPaymentSuccess
    refine List.mem_map.mpr ⟨c, hc, ?_⟩
    rw [if_neg (fun h => hne h.1)]

/-- C7 witness: a pending consumable carrying intent 7 is marked purchased
once, and the second confirmation changes nothing. -/
theorem C7_onPaymentSuccessIdempotent_witness :
    onPaymentSuccess
        (onPaymentSuccess
          (⟨[{ shoppableId := 0, owner := Ident.member 0, expiresAt := none,
               purchasedAt := none, stripeIntentId := some 7 }], [], []⟩ :
            ShopState) 7 100) 7 200 =
      onPaymentSuccess
        (⟨[{ shoppableId := 0, owner := Ident.member 0, expiresAt := none,
             purchasedAt := none, stripeIntentId := some 7 }], [], []⟩ :
          ShopState) 7 100 ∧
    ({ shoppableId := 0, owner := Ident.member 0, expiresAt := none,
       purchasedAt := some 100, stripeIntentId := some 7 } :
        Consumable).purchasedAt ≠ none := by
  constructor
  · exact (C7_onPaymentSuccessIdempotent
      (⟨[{ shoppableId := 0, owner := Ident.member 0, expiresAt := none,
           purchasedAt := none, stripeIntentId := some 7 }], [], []⟩ :
        ShopState) 7 100 200).1
  · exact (C7_onPaymentSuccessIdempotent
      (⟨[{ shoppableId := 0, owner := Ident.member 0, expiresAt := none,
           purchasedAt := none, stripeIntentId := some 7 }], [], []⟩ :
        ShopState) 7 100 200).2.1
      { shoppableId := 0, owner := Ident.member 0, expiresAt := none,
        purchasedAt := some 100, stripeIntentId := some 7 }
      (by decide) rfl

/-- Errors of the purchase coordinator modelled here. -/
inductive PurchaseError where
  | emptyCart
deriving DecidableEq, Repr

/-- A synchronous call the coordinator makes to the payment provider. -/
inductive ProviderCall where
  | cancelIntent (intentId : Nat)
  | createIntent (intentId : Nat) (amount : Int) (idempotencyKey : Nat)
deriving DecidableEq, Repr

/-- Membership in an identification's cart: an unpurchased consumable of
the caller that has not expired. -/
def inCartPred (who : Ident) (now : Int) (c : Consumable) : Bool :=
  decide (c.owner = who) && c.purchasedAt.isNone &&
    (match c.expiresAt with
     | none => true
     | some e => decide (now < e))

/-- The cart of an identification. -/
def cartOf (s : ShopState) (who : Ident) (now : Int) : List Consumable :=
  s.consumables.filter (inCartPred who now)

/-- Modelled from the spec: `purchaseCart` (in `purchase.ts`, not under
src/).  It fails on an empty cart; otherwise it computes the total price,
cancels the prior unresolved payment intent of the cart at the provider —
if one exists — before creating the new intent (tagged with the caller's
idempotency key; the provider issues `newIntentId`), and persists the new
intent id onto every consumable of the cart.  The provider interaction is
returned as the ordered list of calls made. -/
def purchaseCart (s : ShopState) (prices : Nat → Int) (who : Ident)
    (idempotencyKey : Nat) (newIntentId : Nat) (now : Int) :
    Except PurchaseError (ShopState × List ProviderCall) :=
  let cart := cartOf s who now
  if cart.isEmpty then Except.error PurchaseError.emptyCart
  else
    let amount := (cart.map (fun c => prices c.shoppableId)).sum
    let calls :=
      (match (cart.filterMap Consumable.stripeIntentId).head? with
       | some prior => [ProviderCall.cancelIntent prior]
       | none => []) ++
      [ProviderCall.createIntent newIntentId amount idempotencyKey]
    Except.ok
      ({ s with consumables := s.consumables.map (fun c =>
          if inCartPred who now c then
            { c with stripeIntentId := some newIntentId }
          else c) }, calls)

/-- Setting the intent id does not change cart membership. -/
theorem inCartPred_setIntent (who : Ident) (now : Int) (c : Consumable)
    (i : Nat) :
    inCartPred who now { c with stripeIntentId := some i } =
      inCartPred who now c := by
  rcases c with ⟨csid, cow, cex, cpu, cst⟩
  rfl

/-- Filtering commutes with a map that preserves the predicate. -/
theorem filter_map_of_pred_eq {α : Type} (u : α → α) (p : α → Bool)
    (h : ∀ c, p (u c) = p c) :
    ∀ l : List α, (l.map u).filter p = (l.filter p).map u := by
  intro l
  induction l with
  | nil => rfl
  | cons c cs ih =>
    by_cases hc : p c
    · simp only [List.map_cons, List.filter_cons, h c, hc, if_pos,
        List.map_cons, ih]
    · simp only [List.map_cons, List.filter_cons, h c] at ih ⊢
      rw [Bool.eq_false_iff.mpr hc]
      simpa using ih

/-- C8: a purchase on a nonempty cart cancels the prior unresolved intent
at the provider strictly before creating the new one (so at most one
provider-side intent of this cart is live at a time), creates exactly one
new intent otherwise, and persists the new intent id onto every consumable
of the cart. -/
theorem C8_purchaseCartCancelsPriorIntent (s : ShopState)
    (prices : Nat → Int) (who : Ident) (idempotencyKey : Nat)
    (newIntentId : Nat) (now : Int)
    (hne : cartOf s who now ≠ []) :
    ∃ s' calls,
      purchaseCart s prices who idempotencyKey newIntentId now =
        Except.ok (s', calls) ∧
      (∀ prior,
        ((cartOf s who now).filterMap Consumable.stripeIntentId).head? =
            some prior →
        calls = [ProviderCall.cancelIntent prior,
          ProviderCall.createIntent newIntentId
            ((cartOf s who now).map (fun c => prices c.shoppableId)).sum
            idempotencyKey]) ∧
      (((cartOf s who now).filterMap Consumable.stripeIntentId).head? =
          none →
        calls = [ProviderCall.createIntent newIntentId
          ((cartOf s who now).map (fun c => prices c.shoppableId)).sum
          idempotencyKey]) ∧
      (∀ c ∈ cartOf s' who now, c.stripeIntentId = some newIntentId) := by
  unfold purchaseCart
  rw [if_neg (by rw [List.isEmpty_iff]; exact hne)]
  dsimp only
  refine ⟨_, _, rfl, ?_, ?_, ?_⟩
  · intro prior hp
    rw [hp]
    rfl
  · intro hp
    rw [hp]
    rfl
  · intro c hc
    unfold cartOf at hc
    dsimp only at hc
    rw [filter_map_of_pred_eq _ (inCartPred who now)
      (fun c => by
        by_cases h0 : inCartPred who now c
        · rw [if_pos h0, inCartPred_setIntent]
        · rw [if_neg h0]) s.consumables] at hc
    obtain ⟨c0, hc0, rfl⟩ := List.mem_map.mp hc
    have h0 : inCartPred who now c0 = true := List.of_mem_filter hc0
    rw [if_pos h0]

/-- C8 witness: a cart with one hold carrying intent 7 gets that intent
cancelled before intent 9 is created, and the hold is re-tagged with
intent 9. -/
theorem C8_purchaseCartCancelsPriorIntent_witness :
    ∃ s' calls,
      purchaseCart
          (⟨[{ shoppableId := 0, owner := Ident.member 0, expiresAt := none,
               purchasedAt := none, stripeIntentId := some 7 }], [], []⟩ :
            ShopState)
          (fun _ => 100) (Ident.member 0) 1 9 0 =
        Except.ok (s', calls) ∧
      (∀ prior,
        ((cartOf
            (⟨[{ shoppableId := 0, owner := Ident.member 0,
                 expiresAt := none, purchasedAt := none,
                 stripeIntentId := some 7 }], [], []⟩ : ShopState)
            (Ident.member 0) 0).filterMap
              Consumable.stripeIntentId).head? = some prior →
        calls = [ProviderCall.cancelIntent prior,
          ProviderCall.createIntent 9
            ((cartOf
              (⟨[{ shoppableId := 0, owner := Ident.member 0,
                   expiresAt := none, purchasedAt := none,
                   stripeIntentId := some 7 }], [], []⟩ : ShopState)
              (Ident.member 0) 0).map (fun c => (fun _ => 100)
                c.shoppableId)).sum 1]) ∧
      (((cartOf
          (⟨[{ shoppableId := 0, owner := Ident.member 0, expiresAt := none,
               purchasedAt := none, stripeIntentId := some 7 }], [], []⟩ :
            ShopState)
          (Ident.member 0) 0).filterMap
            Consumable.stripeIntentId).head? = none →
        calls = [ProviderCall.createIntent 9
          ((cartOf
            (⟨[{ shoppableId := 0, owner := Ident.member 0,
                 expiresAt := none, purchasedAt := none,
                 stripeIntentId := some 7 }], [], []⟩ : ShopState)
            (Ident.member 0) 0).map (fun c => (fun _ => 100)
              c.shoppableId)).sum 1]) ∧
      (∀ c ∈ cartOf s' (Ident.member 0) 0,
        c.stripeIntentId = some 9) :=
  C8_purchaseCartCancelsPriorIntent
    (⟨[{ shoppableId := 0, owner := Ident.member 0, expiresAt := none,
         purchasedAt := none, stripeIntentId := some 7 }], [], []⟩ :
      ShopState)
    (fun _ => 100) (Ident.member 0) 1 9 0 (by decide)

/-! ### Public ticket views: `formatTicket`, `getTicket`, `getTickets` -/

/-- The public shape of a ticket.  The raw ledger fields of the query
(`consumables`, `reservations`, `shoppable`, `_count`) are deleted by
`formatTicket`, so this type carries only the ticket itself and the derived
per-user fields. -/
structure TicketWithMoreInfo where
  info : Ticket
  gracePeriodEndsAt : Int
  isInUsersCart : Bool
  userAlreadyHasMax : Bool
  ticketsLeft : Int
deriving DecidableEq, Repr

/-- The user-scoped `consumables` include of `ticketIncludedFields`: the
caller's rows for this shoppable, unexpired or permanent. -/
def userVisibleConsumables (s : ShopState) (sid : Nat) (who : Ident)
    (now : Int) : List Consumable :=
  s.consumables.filter (fun c =>
    decide (c.shoppableId = sid ∧ c.owner = who) &&
      (match c.expiresAt with
       | none => true
       | some e => decide (now < e)))

/-- The user-scoped `reservations` include of `ticketIncludedFields`. -/
def userVisibleReservations (s : ShopState) (sid : Nat) (who : Ident) :
    List Reservation :=
  s.reservations.filter (fun r =>
    decide (r.shoppableId = sid ∧ r.owner = who))

/-- `formatTicket`: flattens the shoppable into the ticket, computes
`gracePeriodEndsAt`, `isInUsersCart`, `userAlreadyHasMax` and the clamped
`ticketsLeft`, and deletes the raw `consumables`, `reservations`,
`shoppable` and `_count` fields (the output type has none of them). -/
def formatTicket (s : ShopState) (t : Ticket) (who : Ident) (now : Int) :
    TicketWithMoreInfo :=
  let cons := userVisibleConsumables s t.shoppableId who now
  let res := userVisibleReservations s t.shoppableId who
  { info := t
    gracePeriodEndsAt := t.availableFrom + GRACE_PERIOD_WINDOW
    isInUsersCart :=
      decide (0 < (cons.filter (fun c => c.purchasedAt.isNone)).length) ||
        decide (0 < res.length)
    userAlreadyHasMax :=
      decide (t.maxAmountPerUser ≤
        (cons.filter (fun c => c.purchasedAt.isSome)).length)
    ticketsLeft :=
      min ((t.stock : Int) - (purchasedCount s t.shoppableId : Int)) 10 }

/-- Ten days in milliseconds: the `dayjs().subtract(10, "days")` cutoff of
`getTickets`. -/
def tenDaysMs : Int := 10 * 24 * 60 * 60 * 1000

/-- The shoppable `where` clause of `getTickets`: not removed (or removal
date already passed, per the source's `lt` filter) and available within the
last ten days. -/
def getTicketsFilter (t : Ticket) (now : Int) : Bool :=
  (match t.removedAt with
   | none => true
   | some r => decide (r < now)) &&
  (match t.availableTo with
   | none => true
   | some a => decide (now - tenDaysMs < a))

/-- `getTickets`: the filtered tickets ordered by `availableFrom`
ascending, each formatted. -/
def getTickets (s : ShopState) (db : List Ticket) (who : Ident)
    (now : Int) : List TicketWithMoreInfo :=
  ((db.filter (fun t => getTicketsFilter t now)).mergeSort
      (fun a b => decide (a.availableFrom ≤ b.availableFrom))).map
    (fun t => formatTicket s t who now)

/-- `getTicket`: `findFirst` by ticket id, formatted; `none` when the
ticket does not exist. -/
def getTicket (s : ShopState) (db : List Ticket) (tid : Nat) (who : Ident)
    (now : Int) : Option TicketWithMoreInfo :=
  (db.find? (fun t => decide (t.shoppableId = tid))).map
    (fun t => formatTicket s t who now)

/-- C10: every ticket the public interface returns is a `formatTicket`
image — its raw ledger fields are deleted by construction of
`TicketWithMoreInfo` — and its `ticketsLeft` equals
`min (stock - purchasedCount) 10`, hence never exceeds 10 whatever the real
remaining stock. -/
theorem C10_ticketsLeftClamped (s : ShopState) (who : Ident) (now : Int) :
    (∀ t : Ticket,
      (formatTicket s t who now).ticketsLeft =
        min ((t.stock : Int) - (purchasedCount s t.shoppableId : Int)) 10 ∧
      (formatTicket s t who now).ticketsLeft ≤ 10) ∧
    (∀ db x, x ∈ getTickets s db who now →
      ∃ t, x = formatTicket s t who now) ∧
    (∀ db tid x, getTicket s db tid who now = some x →
      ∃ t, x = formatTicket s t who now) := by
  refine ⟨?_, ?_, ?_⟩
  · intro t
    exact ⟨rfl, min_le_right _ _⟩
  · intro db x hx
    unfold getTickets at hx
    obtain ⟨t, _, rfl⟩ := List.mem_map.mp hx
    exact ⟨t, rfl⟩
  · intro db tid x hx
    unfold getTicket at hx
    obtain ⟨t, _, hf⟩ := Option.map_eq_some'.mp hx
    exact ⟨t, hf.symm⟩

/-- C10 witness: a ticket with 100 in stock and nothing sold is reported
with 10 tickets left, and a `getTickets` result is a `formatTicket`
image. -/
theorem C10_ticketsLeftClamped_witness :
    ((formatTicket (⟨[], [], []⟩ : ShopState)
        ({ shoppableId := 0, price := 100, stock := 100,
           maxAmountPerUser := 1, availableFrom := 0 } : Ticket)
        (Ident.member 0) 600000).ticketsLeft =
      min ((100 : Int) - 0) 10 ∧
     (formatTicket (⟨[], [], []⟩ : ShopState)
        ({ shoppableId := 0, price := 100, stock := 100,
           maxAmountPerUser := 1, availableFrom := 0 } : Ticket)
        (Ident.member 0) 600000).ticketsLeft ≤ 10) ∧
    (∃ t, formatTicket (⟨[], [], []⟩ : ShopState)
        ({ shoppableId := 0, price := 100, stock := 100,
           maxAmountPerUser := 1, availableFrom := 0 } : Ticket)
        (Ident.member 0) 600000 =
      formatTicket (⟨[], [], []⟩ : ShopState) t (Ident.member 0) 600000) := by
  constructor
  · exact (C10_ticketsLeftClamped (⟨[], [], []⟩ : ShopState)
      (Ident.member 0) 600000).1
      ({ shoppableId := 0, price := 100, stock := 100,
         maxAmountPerUser := 1, availableFrom := 0 } : Ticket)
  · exact (C10_ticketsLeftClamped (⟨[], [], []⟩ : ShopState)
      (Ident.member 0) 600000).2.1
      [({ shoppableId := 0, price := 100, stock := 100,
          maxAmountPerUser := 1, availableFrom := 0 } : Ticket)] _
      (by
        unfold getTickets
        refine List.mem_map.mpr ⟨_, ?_, rfl⟩
        rw [List.mem_mergeSort]
        decide)

end DsekShop
